import Mathlib

set_option maxHeartbeats 1000000

namespace ReactAuthTemplate

/-!
Shallow embedding of the React-Auth-Template repository.

Part 1 embeds the axios client configuration (the response interceptor
with single-flight token refresh and its continuation queue) as an
event-loop machine: the synchronous runs of the interceptor are the
atomic steps, interleaved by a schedule of external events (response
arrivals, the refresh call settling, microtask pumps).

Part 2 embeds the Express auth route handlers (login, me, refresh) and
the AuthProvider logout function.
-/

/-- Substring test on character lists: does the pattern occur at the head. -/
def charsStart : List Char → List Char → Bool
  | [], _ => true
  | _ :: _, [] => false
  | c :: cs, d :: ds => c == d && charsStart cs ds

/-- Substring test on character lists: does the pattern occur anywhere. -/
def charsHave (pat : List Char) : List Char → Bool
  | [] => charsStart pat []
  | d :: ds => charsStart pat (d :: ds) || charsHave pat ds

/-- JavaScript s.includes(pat): substring containment on strings. -/
def strContains (s pat : String) : Bool :=
  charsHave pat.toList s.toList

/-- The auth endpoints excluded from the refresh flow (axiosConfig.ts). -/
def authEndpoints : List String :=
  ["/auth/login", "/auth/register", "/auth/refresh", "/auth/logout"]

/-- The public pages on which a failed refresh does not redirect (axiosConfig.ts). -/
def publicPages : List String :=
  ["/login", "/register", "/", "/forgot-password"]

/-- An axios request configuration as the interceptor reads it:
the url (possibly absent) and the mutable retry marker. -/
structure ReqConfig where
  url : Option String
  _retry : Bool
  deriving Repr, DecidableEq

/-- authEndpoints.some of endpoint as url includes endpoint, with the
optional chaining url? giving false when the url is absent. -/
def isAuthEndpoint (url : Option String) : Bool :=
  authEndpoints.any fun endp =>
    match url with
    | none => false
    | some u => strContains u endp

/-- The shouldRefresh condition of the interceptor: status 401, the
request not already retried, and not an auth endpoint. -/
def shouldRefresh (status : Option Nat) (originalRequest : ReqConfig) : Bool :=
  status == some 401 && !originalRequest._retry && !isAuthEndpoint originalRequest.url

/-- The value a promise is rejected with. -/
inductive ErrVal where
  /-- The error the failed refresh call rejected with. -/
  | refreshErr : ErrVal
  /-- The original response error of the given task, with its status. -/
  | respErrVal : Nat → Option Nat → ErrVal
  deriving Repr, DecidableEq

/-- The primitive observable actions an interceptor run can perform,
recorded in program order. -/
inductive Action where
  /-- The caller of task i receives a rejection with the given value. -/
  | rejectToCaller : Nat → ErrVal → Action
  /-- A resolve/reject pair for task i is pushed onto failedRequestsQueue. -/
  | pushQueue : Nat → Action
  /-- originalRequest._retry is set to true for task i. -/
  | setRetry : Nat → Action
  /-- The module-level isRefreshing flag is assigned. -/
  | setRefreshing : Bool → Action
  /-- A POST /auth/refresh network call is issued. -/
  | issueRefresh : Action
  /-- The running handler suspends at an await. -/
  | suspend : Nat → Action
  /-- The queued continuation of task i is resolved. -/
  | resolveCont : Nat → Action
  /-- The queued continuation of task i is rejected with the given value. -/
  | rejectCont : Nat → ErrVal → Action
  /-- api(originalRequest) is issued again for task i. -/
  | replay : Nat → Action
  /-- window.location.href is assigned the given path. -/
  | redirect : String → Action
  deriving Repr, DecidableEq

/-- The lifecycle point of one request task in the interceptor. -/
inductive TaskSt where
  /-- Its continuation sits in failedRequestsQueue; the closure holds its request. -/
  | queuedSt : ReqConfig → TaskSt
  /-- This task started the refresh and awaits the refresh call. -/
  | awaitingSt : ReqConfig → TaskSt
  /-- Its continuation was resolved; the .then microtask that replays is pending. -/
  | microReplay : ReqConfig → TaskSt
  /-- Its continuation was rejected; the propagating microtask is pending. -/
  | microReject : TaskSt
  /-- api(originalRequest) has been issued again; the replay is in flight. -/
  | replayedSt : ReqConfig → TaskSt
  /-- The error was propagated to the caller. -/
  | rejectedSt : TaskSt
  deriving Repr, DecidableEq

/-- The event-loop state: the module-level interceptor state
(isRefreshing, failedRequestsQueue), the per-task states, the pending
microtasks, the in-flight refresh episode, the action trace, and the
browser location. -/
structure LoopState where
  isRefreshing : Bool
  failedRequestsQueue : List Nat
  tasks : Nat → Option TaskSt
  microtasks : List Nat
  inflight : Option (Nat × ReqConfig)
  trace : List Action
  pathname : String
  redirects : List String

/-- Point update of the task table. -/
def updT (f : Nat → Option TaskSt) (i : Nat) (s : TaskSt) : Nat → Option TaskSt :=
  fun j => if j = i then some s else f j

/-- processQueue: each queued continuation is resolved when there is no
error and rejected with the error otherwise, in queue order. -/
def processQueue (q : List Nat) (error : Option ErrVal) : List Action :=
  q.map fun j =>
    match error with
    | none => Action.resolveCont j
    | some e => Action.rejectCont j e

/-- One synchronous run of the response-error interceptor for task i
whose response failed with the given status: reject directly unless
shouldRefresh; enqueue when a refresh is already in flight; otherwise
mark the request retried, raise the flag and issue the refresh call. -/
def handleErr (st : LoopState) (i : Nat) (req : ReqConfig) (status : Option Nat) : LoopState :=
  if shouldRefresh status req = true then
    if st.isRefreshing = true then
      { st with failedRequestsQueue := st.failedRequestsQueue ++ [i],
                tasks := updT st.tasks i (TaskSt.queuedSt req),
                trace := st.trace ++ [Action.pushQueue i] }
    else
      { st with isRefreshing := true,
                inflight := some (i, { req with _retry := true }),
                tasks := updT st.tasks i (TaskSt.awaitingSt { req with _retry := true }),
                trace := st.trace ++ [Action.setRetry i, Action.setRefreshing true,
                                      Action.issueRefresh, Action.suspend i] }
  else
    { st with tasks := updT st.tasks i TaskSt.rejectedSt,
              trace := st.trace ++ [Action.rejectToCaller i (ErrVal.respErrVal i status)] }

/-- The synchronous continuation that runs when the in-flight refresh
call settles, covering the try/catch/finally of the interceptor: on
success processQueue resolves every continuation (scheduling their
replay microtasks in queue order) and the triggering request is
re-issued; on failure processQueue rejects every continuation with the
refresh error, a redirect to /login is triggered unless the location is
a public page, and the triggering caller is rejected; in both cases the
finally block lowers isRefreshing strictly after the drain. -/
def settle (st : LoopState) (ok : Bool) : LoopState :=
  match st.inflight with
  | none => st
  | some (t, req) =>
    let q := st.failedRequestsQueue
    if ok then
      { st with
          isRefreshing := false,
          failedRequestsQueue := [],
          inflight := none,
          microtasks := st.microtasks ++ q,
          tasks := fun j =>
            if j = t then some (TaskSt.replayedSt req)
            else if j ∈ q then
              match st.tasks j with
              | some (TaskSt.queuedSt r) => some (TaskSt.microReplay r)
              | x => x
            else st.tasks j,
          trace := st.trace ++ processQueue q none
                   ++ [Action.replay t, Action.setRefreshing false] }
    else
      { st with
          isRefreshing := false,
          failedRequestsQueue := [],
          inflight := none,
          microtasks := st.microtasks ++ q,
          tasks := fun j =>
            if j = t then some TaskSt.rejectedSt
            else if j ∈ q then
              match st.tasks j with
              | some (TaskSt.queuedSt _) => some TaskSt.microReject
              | x => x
            else st.tasks j,
          trace := st.trace ++ processQueue q (some ErrVal.refreshErr)
                   ++ (if st.pathname ∈ publicPages then [] else [Action.redirect "/login"])
                   ++ [Action.rejectToCaller t ErrVal.refreshErr, Action.setRefreshing false],
          redirects := st.redirects
                   ++ (if st.pathname ∈ publicPages then [] else ["/login"]) }

/-- Run the first pending microtask: the .then callback of a resolved
continuation re-issues its request; the catch path of a rejected one
propagates the refresh error to its caller. -/
def microStep (st : LoopState) : LoopState :=
  match st.microtasks with
  | [] => st
  | j :: rest =>
    match st.tasks j with
    | some (TaskSt.microReplay r) =>
      { st with microtasks := rest,
                tasks := updT st.tasks j (TaskSt.replayedSt r),
                trace := st.trace ++ [Action.replay j] }
    | some TaskSt.microReject =>
      { st with microtasks := rest,
                tasks := updT st.tasks j TaskSt.rejectedSt,
                trace := st.trace ++ [Action.rejectToCaller j ErrVal.refreshErr] }
    | _ => { st with microtasks := rest }

/-- External stimuli driving the event loop. -/
inductive Event where
  /-- A fresh request with the given id fails with the given status. -/
  | newReq : Nat → ReqConfig → Option Nat → Event
  /-- The in-flight replay of task i fails with the given status. -/
  | respErr : Nat → Option Nat → Event
  /-- The in-flight refresh call resolves. -/
  | refreshOk : Event
  /-- The in-flight refresh call rejects. -/
  | refreshFail : Event
  /-- The event loop runs the first pending microtask. -/
  | microtask : Event
  deriving Repr, DecidableEq

/-- One step of the event loop. -/
def step (st : LoopState) (ev : Event) : LoopState :=
  match ev with
  | Event.newReq i req status =>
    if (st.tasks i).isSome then st else handleErr st i req status
  | Event.respErr i status =>
    match st.tasks i with
    | some (TaskSt.replayedSt r) => handleErr st i r status
    | _ => st
  | Event.refreshOk => settle st true
  | Event.refreshFail => settle st false
  | Event.microtask => microStep st

/-- Run a schedule of events. -/
def runLoop (st : LoopState) (evs : List Event) : LoopState :=
  evs.foldl step st

/-- The initial state: coordinator IDLE, empty queue, no tasks. -/
def initSt (pathname : String) : LoopState :=
  { isRefreshing := false, failedRequestsQueue := [], tasks := fun _ => none,
    microtasks := [], inflight := none, trace := [], pathname := pathname,
    redirects := [] }

/-!
Part 2: the Express auth route handlers (server authRoutes) and the
AuthProvider logout function.
-/

/-- A JSON object as the routes handle it: ordered string fields. -/
abbrev Obj := List (String × String)

/-- Rest destructuring dropping one key, as in taking password out of
the user document before signing and responding. -/
def omitKey (k : String) (o : Obj) : Obj :=
  o.filter fun p => !(p.1 == k)

/-- Outcome of a collection.findOne await: a document, no document, or a
thrown error (bad hex id, connection failure and the like). -/
inductive DbOutcome where
  | found : Obj → DbOutcome
  | notFound : DbOutcome
  | dbThrow : DbOutcome
  deriving Repr, DecidableEq

/-- A decoded JWT payload as jwt.verify returns it: a string or an object. -/
inductive Decoded where
  | str : String → Decoded
  | obj : Obj → Decoded
  deriving Repr, DecidableEq

/-- The response surface the claims observe: the HTTP status, the user
field of the JSON body when present, and the message field. -/
structure Resp where
  status : Nat
  user : Option Obj
  message : Option String
  deriving Repr, DecidableEq

/-- JavaScript falsiness of an optional string value (undefined or empty). -/
def falsyStr (o : Option String) : Bool :=
  match o with
  | none => true
  | some s => s == ""

/-- The environment and collaborators of the refresh route: whether
connectToDb succeeds, the two JWT env keys, the verifyRefreshTokenFromCookies
helper (none when jwt.verify throws, so invalid and expired tokens give
null), and the findOne by decoded id (which can itself throw). -/
structure RefreshWorld where
  dbConnOk : Bool
  jwtSecretKey : Option String
  jwtRefreshKey : Option String
  verifyRefresh : String → Option Decoded
  findUser : String → DbOutcome

/-- The POST /auth/refresh handler. Mirrors the route body: connect,
read the refreshToken cookie, require it, require both env keys (throw
caught as 401), verify (a null or string or id-less payload is the 400
malformed branch, since in JavaScript typeof null is the string object),
find the user (404 when absent, throw caught as 401), strip the
password, sign a new access token and answer 200. -/
def refreshRoute (w : RefreshWorld) (refreshToken : Option String) : Resp :=
  if !w.dbConnOk then
    { status := 401, user := none, message := some "Invalid or expired refresh token" }
  else
    match refreshToken with
    | none =>
      { status := 400, user := none, message := some "No refresh token found!" }
    | some tok =>
      if w.jwtRefreshKey.isNone || w.jwtSecretKey.isNone then
        { status := 401, user := none, message := some "Invalid or expired refresh token" }
      else
        match w.verifyRefresh tok with
        | none =>
          { status := 400, user := none, message := some "Malformed refresh token payload" }
        | some (Decoded.str _) =>
          { status := 400, user := none, message := some "Malformed refresh token payload" }
        | some (Decoded.obj fields) =>
          match fields.lookup "_id" with
          | none =>
            { status := 400, user := none, message := some "Malformed refresh token payload" }
          | some idHex =>
            match w.findUser idHex with
            | DbOutcome.dbThrow =>
              { status := 401, user := none, message := some "Invalid or expired refresh token" }
            | DbOutcome.notFound =>
              { status := 404, user := none, message := some "User not found" }
            | DbOutcome.found u =>
              { status := 200, user := some (omitKey "password" u),
                message := some "Access token refreshed!" }

/-- The environment and collaborators of the login route: whether
connectToDb succeeds, findOne by email, bcrypt.compare, and the two JWT
env keys. -/
structure LoginWorld where
  dbConnOk : Bool
  findByEmail : String → DbOutcome
  bcryptCompare : String → String → Bool
  jwtSecretKey : Option String
  jwtRefreshKey : Option String

/-- The POST /auth/login handler. Mirrors the route body: connect,
require email and password, find the user by email (401 when absent),
compare the password against the stored hash (a missing stored hash
makes bcrypt.compare reject, caught as 500), require both env keys
(500), strip the password by destructuring, sign both tokens, set both
cookies and answer 200 with the safe user. -/
def loginRoute (w : LoginWorld) (email password : Option String) : Resp :=
  if !w.dbConnOk then
    { status := 500, user := none, message := some "Internal server error" }
  else if falsyStr email || falsyStr password then
    { status := 400, user := none, message := some "Username and password are required" }
  else
    match w.findByEmail (email.getD "") with
    | DbOutcome.dbThrow =>
      { status := 500, user := none, message := some "Internal server error" }
    | DbOutcome.notFound =>
      { status := 401, user := none, message := some "Invalid credentials" }
    | DbOutcome.found u =>
      match u.lookup "password" with
      | none =>
        { status := 500, user := none, message := some "Internal server error" }
      | some storedHash =>
        if !w.bcryptCompare (password.getD "") storedHash then
          { status := 401, user := none, message := some "Invalid credentials" }
        else if w.jwtSecretKey.isNone then
          { status := 500, user := none, message := some "JWT secret key not configured" }
        else if w.jwtRefreshKey.isNone then
          { status := 500, user := none, message := some "JWT secret key not configured" }
        else
          { status := 200, user := some (omitKey "password" u),
            message := some "Login successful" }

/-- The environment and collaborators of the me route: whether
connectToDb succeeds, the verifyAccessTokenFromCookies helper, and the
findOne by id. The projection excluding password is applied to the found
document, modelling the MongoDB projection in the query. -/
structure MeWorld where
  dbConnOk : Bool
  verifyAccess : String → Option Decoded
  findById : String → DbOutcome

/-- The GET /auth/me handler. Mirrors the route body: connect, require
the accessToken cookie (401), verify it (null gives 401), require an
object payload carrying an id (400), findOne with a projection that
excludes the password (400 when absent, throw caught as 500), answer
200 with the projected user. -/
def meRoute (w : MeWorld) (accessToken : Option String) : Resp :=
  if !w.dbConnOk then
    { status := 500, user := none, message := some "Internal server error" }
  else if falsyStr accessToken then
    { status := 401, user := none, message := some "No Access Token" }
  else
    match w.verifyAccess (accessToken.getD "") with
    | none =>
      { status := 401, user := none, message := some "Invalid or expired token" }
    | some (Decoded.str _) =>
      { status := 400, user := none, message := some "No Id found in user object, Object malformed" }
    | some (Decoded.obj fields) =>
      match fields.lookup "_id" with
      | none =>
        { status := 400, user := none, message := some "No Id found in user object, Object malformed" }
      | some idHex =>
        match w.findById idHex with
        | DbOutcome.dbThrow =>
          { status := 500, user := none, message := some "Internal server error" }
        | DbOutcome.notFound =>
          { status := 400, user := none, message := some "User not found" }
        | DbOutcome.found u =>
          { status := 200, user := some (omitKey "password" u), message := none }

/-!
The AuthProvider logout function (contexts/AuthProvider.tsx).
-/

/-- The client auth context state: user, loading, error. -/
structure AuthState where
  user : Option Obj
  loading : Bool
  error : Option String
  deriving Repr, DecidableEq

/-- Outcome of the awaited api.post network call. -/
inductive NetResult where
  | ok : NetResult
  | netErr : String → NetResult
  deriving Repr, DecidableEq

/-- Everything logout makes observable: the final auth context state,
the navigate calls, the console logs, and the exception surfaced to the
caller, if any. -/
structure LogoutEffects where
  finalSt : AuthState
  navCalls : List String
  consoleLogs : List String
  consoleErrors : List String
  thrown : Option String
  deriving Repr, DecidableEq

/-- The body of the try block: the awaited api.post either returns (and
the success is logged) or throws the network error. -/
def logoutTry (net : NetResult) : Except String (List String) :=
  match net with
  | NetResult.ok => Except.ok ["Logout successful"]
  | NetResult.netErr e => Except.error e

/-- logout(): try the network call, catch logs the failure without
rethrowing, and the finally block unconditionally clears user, loading
and error and navigates to /login. -/
def logout (st0 : AuthState) (net : NetResult) : LogoutEffects :=
  let handled : List String × List String × Option String :=
    match logoutTry net with
    | Except.ok logs => (logs, [], none)
    | Except.error e => ([], ["Logout request failed: " ++ e], none)
  { finalSt := { st0 with user := none, loading := false, error := none },
    navCalls := ["/login"],
    consoleLogs := handled.1,
    consoleErrors := handled.2.1,
    thrown := handled.2.2 }

/-!
Helper lemmas.
-/

/-- The interceptor run for a request failing the shouldRefresh test. -/
lemma handleErr_reject (st : LoopState) (i : Nat) (req : ReqConfig) (status : Option Nat)
    (h : shouldRefresh status req = false) :
    handleErr st i req status
      = { st with tasks := updT st.tasks i TaskSt.rejectedSt,
                  trace := st.trace ++ [Action.rejectToCaller i (ErrVal.respErrVal i status)] } := by
  simp [handleErr, h]

/-- The interceptor run for an eligible request while a refresh is in flight. -/
lemma handleErr_enqueue (st : LoopState) (i : Nat) (req : ReqConfig) (status : Option Nat)
    (h1 : shouldRefresh status req = true) (h2 : st.isRefreshing = true) :
    handleErr st i req status
      = { st with failedRequestsQueue := st.failedRequestsQueue ++ [i],
                  tasks := updT st.tasks i (TaskSt.queuedSt req),
                  trace := st.trace ++ [Action.pushQueue i] } := by
  simp [handleErr, h1, h2]

/-- The interceptor run for an eligible request while the coordinator is idle. -/
lemma handleErr_start (st : LoopState) (i : Nat) (req : ReqConfig) (status : Option Nat)
    (h1 : shouldRefresh status req = true) (h2 : st.isRefreshing = false) :
    handleErr st i req status
      = { st with isRefreshing := true,
                  inflight := some (i, { req with _retry := true }),
                  tasks := updT st.tasks i (TaskSt.awaitingSt { req with _retry := true }),
                  trace := st.trace ++ [Action.setRetry i, Action.setRefreshing true,
                                        Action.issueRefresh, Action.suspend i] } := by
  simp [handleErr, h1, h2]

/-- A retried request never satisfies shouldRefresh. -/
lemma shouldRefresh_of_retried (status : Option Nat) (req : ReqConfig)
    (h : req._retry = true) : shouldRefresh status req = false := by
  simp [shouldRefresh, h]

/-- A url containing an auth endpoint makes isAuthEndpoint true. -/
lemma isAuthEndpoint_of_contains (u e : String) (he : e ∈ authEndpoints)
    (hc : strContains u e = true) : isAuthEndpoint (some u) = true := by
  unfold isAuthEndpoint
  rw [List.any_eq_true]
  exact ⟨e, he, hc⟩

/-- An auth-endpoint url never satisfies shouldRefresh. -/
lemma shouldRefresh_of_authEndpoint (status : Option Nat) (req : ReqConfig)
    (h : isAuthEndpoint req.url = true) : shouldRefresh status req = false := by
  simp [shouldRefresh, h]

/-- Filtering out one key removes every binding for it. -/
lemma lookup_omitKey (k : String) (o : Obj) : (omitKey k o).lookup k = none := by
  induction o with
  | nil => rfl
  | cons p t ih =>
    unfold omitKey at ih ⊢
    cases hpk : (p.1 == k) with
    | false =>
      have hk : (k == p.1) = false := by
        rcases p with ⟨a, b⟩
        simp only [beq_eq_false_iff_ne] at hpk ⊢
        exact fun h => hpk h.symm
      simp [List.filter, hpk, List.lookup, hk, ih]
    | true =>
      simp [List.filter, hpk, ih]

/-- The settle run on refresh success, given the in-flight episode. -/
lemma settle_ok (st : LoopState) (t : Nat) (req : ReqConfig)
    (h : st.inflight = some (t, req)) :
    settle st true
      = { st with
            isRefreshing := false,
            failedRequestsQueue := [],
            inflight := none,
            microtasks := st.microtasks ++ st.failedRequestsQueue,
            tasks := fun j =>
              if j = t then some (TaskSt.replayedSt req)
              else if j ∈ st.failedRequestsQueue then
                match st.tasks j with
                | some (TaskSt.queuedSt r) => some (TaskSt.microReplay r)
                | x => x
              else st.tasks j,
            trace := st.trace ++ processQueue st.failedRequestsQueue none
                     ++ [Action.replay t, Action.setRefreshing false] } := by
  simp [settle, h]

/-- The settle run on refresh failure, given the in-flight episode. -/
lemma settle_fail (st : LoopState) (t : Nat) (req : ReqConfig)
    (h : st.inflight = some (t, req)) :
    settle st false
      = { st with
            isRefreshing := false,
            failedRequestsQueue := [],
            inflight := none,
            microtasks := st.microtasks ++ st.failedRequestsQueue,
            tasks := fun j =>
              if j = t then some TaskSt.rejectedSt
              else if j ∈ st.failedRequestsQueue then
                match st.tasks j with
                | some (TaskSt.queuedSt _) => some TaskSt.microReject
                | x => x
              else st.tasks j,
            trace := st.trace ++ processQueue st.failedRequestsQueue (some ErrVal.refreshErr)
                     ++ (if st.pathname ∈ publicPages then [] else [Action.redirect "/login"])
                     ++ [Action.rejectToCaller t ErrVal.refreshErr, Action.setRefreshing false],
            redirects := st.redirects
                     ++ (if st.pathname ∈ publicPages then [] else ["/login"]) } := by
  simp [settle, h]

/-- The queue/flag invariant: a non-empty failedRequestsQueue forces isRefreshing. -/
def QInv (st : LoopState) : Prop :=
  st.failedRequestsQueue ≠ [] → st.isRefreshing = true

/-- Every interceptor run preserves the queue/flag invariant. -/
lemma qInv_handleErr (st : LoopState) (i : Nat) (req : ReqConfig) (status : Option Nat)
    (h : QInv st) : QInv (handleErr st i req status) := by
  unfold handleErr
  split
  · split
    · intro _
      simpa using ‹st.isRefreshing = true›
    · intro _
      rfl
  · exact h

/-- settle preserves the queue/flag invariant. -/
lemma qInv_settle (st : LoopState) (ok : Bool) (h : QInv st) : QInv (settle st ok) := by
  unfold settle
  split
  · exact h
  · split <;> (intro hq; simp at hq)

/-- microStep preserves the queue/flag invariant. -/
lemma qInv_microStep (st : LoopState) (h : QInv st) : QInv (microStep st) := by
  unfold microStep
  split
  · exact h
  · split <;> exact h

/-- Every event-loop step preserves the queue/flag invariant. -/
lemma qInv_step (st : LoopState) (ev : Event) (h : QInv st) : QInv (step st ev) := by
  cases ev with
  | newReq i req status =>
    simp only [step]
    split
    · exact h
    · exact qInv_handleErr st i req status h
  | respErr i status =>
    simp only [step]
    split
    · exact qInv_handleErr st i _ status h
    · exact h
  | refreshOk => exact qInv_settle st true h
  | refreshFail => exact qInv_settle st false h
  | microtask => exact qInv_microStep st h

/-- The queue/flag invariant holds along any schedule. -/
lemma qInv_runLoop (evs : List Event) : ∀ st : LoopState, QInv st → QInv (runLoop st evs) := by
  induction evs with
  | nil => exact fun st h => h
  | cons e tl ih =>
    intro st h
    exact ih (step st e) (qInv_step st e h)

/-!
Claim theorems.
-/

/-- Claim C3: a request whose retry flag is already set and that fails
again with status 401 makes shouldRefresh false, so the interceptor
rejects the error directly to the caller: the queue, the flag and the
in-flight episode are untouched and the only action is the rejection,
never a second refresh. -/
theorem c3_retried_request_rejected_directly (st : LoopState) (i : Nat) (req : ReqConfig)
    (h : req._retry = true) :
    shouldRefresh (some 401) req = false
    ∧ (handleErr st i req (some 401)).failedRequestsQueue = st.failedRequestsQueue
    ∧ (handleErr st i req (some 401)).isRefreshing = st.isRefreshing
    ∧ (handleErr st i req (some 401)).inflight = st.inflight
    ∧ (handleErr st i req (some 401)).trace
      = st.trace ++ [Action.rejectToCaller i (ErrVal.respErrVal i (some 401))] := by
  have hs := shouldRefresh_of_retried (some 401) req h
  rw [handleErr_reject st i req (some 401) hs]
  exact ⟨hs, rfl, rfl, rfl, rfl⟩

/-- Witness for C3 at a concrete retried request. -/
theorem c3_retried_request_rejected_directly_witness :
    ({ url := some "/api/data", _retry := true } : ReqConfig)._retry = true
    ∧ (shouldRefresh (some 401) ({ url := some "/api/data", _retry := true } : ReqConfig) = false
       ∧ (handleErr (initSt "/dashboard") 3 { url := some "/api/data", _retry := true }
            (some 401)).failedRequestsQueue = (initSt "/dashboard").failedRequestsQueue
       ∧ (handleErr (initSt "/dashboard") 3 { url := some "/api/data", _retry := true }
            (some 401)).isRefreshing = (initSt "/dashboard").isRefreshing
       ∧ (handleErr (initSt "/dashboard") 3 { url := some "/api/data", _retry := true }
            (some 401)).inflight = (initSt "/dashboard").inflight
       ∧ (handleErr (initSt "/dashboard") 3 { url := some "/api/data", _retry := true }
            (some 401)).trace
         = (initSt "/dashboard").trace
           ++ [Action.rejectToCaller 3 (ErrVal.respErrVal 3 (some 401))]) :=
  ⟨rfl, c3_retried_request_rejected_directly (initSt "/dashboard") 3
    { url := some "/api/data", _retry := true } rfl⟩

/-- Claim C4: a 401 whose request url contains one of the four auth
endpoints never enters the refresh flow and is never enqueued: the
interceptor rejects the error directly to the caller, leaving the
queue, the flag and the in-flight episode untouched. -/
theorem c4_auth_endpoints_excluded (st : LoopState) (i : Nat) (req : ReqConfig) (u e : String)
    (hu : req.url = some u) (he : e ∈ authEndpoints) (hc : strContains u e = true) :
    shouldRefresh (some 401) req = false
    ∧ (handleErr st i req (some 401)).failedRequestsQueue = st.failedRequestsQueue
    ∧ (handleErr st i req (some 401)).isRefreshing = st.isRefreshing
    ∧ (handleErr st i req (some 401)).inflight = st.inflight
    ∧ (handleErr st i req (some 401)).trace
      = st.trace ++ [Action.rejectToCaller i (ErrVal.respErrVal i (some 401))] := by
  have ha : isAuthEndpoint req.url = true := by
    rw [hu]
    exact isAuthEndpoint_of_contains u e he hc
  have hs := shouldRefresh_of_authEndpoint (some 401) req ha
  rw [handleErr_reject st i req (some 401) hs]
  exact ⟨hs, rfl, rfl, rfl, rfl⟩

/-- A state with a refresh already in flight, to exercise C4 while busy. -/
def busySt : LoopState :=
  { isRefreshing := true, failedRequestsQueue := [],
    tasks := fun j =>
      if j = 0 then some (TaskSt.awaitingSt { url := some "/api/a", _retry := true }) else none,
    microtasks := [], inflight := some (0, { url := some "/api/a", _retry := true }),
    trace := [], pathname := "/dashboard", redirects := [] }

/-- Witness for C4 at a concrete 401 from the refresh endpoint itself,
observed while a refresh is already in flight. -/
theorem c4_auth_endpoints_excluded_witness :
    ({ url := some "/api/auth/refresh", _retry := false } : ReqConfig).url
      = some "/api/auth/refresh"
    ∧ "/auth/refresh" ∈ authEndpoints
    ∧ strContains "/api/auth/refresh" "/auth/refresh" = true
    ∧ (shouldRefresh (some 401) ({ url := some "/api/auth/refresh", _retry := false } : ReqConfig)
        = false
       ∧ (handleErr busySt 4 { url := some "/api/auth/refresh", _retry := false }
            (some 401)).failedRequestsQueue = busySt.failedRequestsQueue
       ∧ (handleErr busySt 4 { url := some "/api/auth/refresh", _retry := false }
            (some 401)).isRefreshing = busySt.isRefreshing
       ∧ (handleErr busySt 4 { url := some "/api/auth/refresh", _retry := false }
            (some 401)).inflight = busySt.inflight
       ∧ (handleErr busySt 4 { url := some "/api/auth/refresh", _retry := false }
            (some 401)).trace
         = busySt.trace ++ [Action.rejectToCaller 4 (ErrVal.respErrVal 4 (some 401))]) :=
  ⟨rfl, by decide, by decide,
   c4_auth_endpoints_excluded busySt 4 { url := some "/api/auth/refresh", _retry := false }
     "/api/auth/refresh" "/auth/refresh" rfl (by decide) (by decide)⟩

/-- Claim C5: when the refresh call fails, every queued continuation is
rejected with the refresh error in queue order, the triggering caller
is rejected with the refresh error, and a redirect to /login happens
exactly when the current pathname is not on the public allow-list. -/
theorem c5_refresh_failure_path (st : LoopState) (t : Nat) (req : ReqConfig)
    (h : st.inflight = some (t, req)) :
    (settle st false).trace
      = st.trace ++ processQueue st.failedRequestsQueue (some ErrVal.refreshErr)
        ++ (if st.pathname ∈ publicPages then [] else [Action.redirect "/login"])
        ++ [Action.rejectToCaller t ErrVal.refreshErr, Action.setRefreshing false]
    ∧ (settle st false).redirects
      = st.redirects ++ (if st.pathname ∈ publicPages then [] else ["/login"])
    ∧ ((settle st false).redirects ≠ st.redirects ↔ st.pathname ∉ publicPages) := by
  rw [settle_fail st t req h]
  refine ⟨by simp, by simp, ?_⟩
  by_cases hp : st.pathname ∈ publicPages
  · simp [hp]
  · simp only [if_neg hp]
    constructor
    · intro _
      exact hp
    · intro _ hEq
      have hlen := congrArg List.length hEq
      simp at hlen

/-- A state in the middle of a refresh episode with two queued tasks,
on a non-public page. -/
def c5St : LoopState :=
  { isRefreshing := true, failedRequestsQueue := [1, 2],
    tasks := fun j =>
      if j = 0 then some (TaskSt.awaitingSt { url := some "/api/a", _retry := true })
      else if j = 1 then some (TaskSt.queuedSt { url := some "/api/b", _retry := false })
      else if j = 2 then some (TaskSt.queuedSt { url := some "/api/c", _retry := false })
      else none,
    microtasks := [], inflight := some (0, { url := some "/api/a", _retry := true }),
    trace := [], pathname := "/dashboard", redirects := [] }

/-- Witness for C5 at a concrete failing refresh with two queued tasks. -/
theorem c5_refresh_failure_path_witness :
    c5St.inflight = some (0, { url := some "/api/a", _retry := true })
    ∧ ((settle c5St false).trace
        = c5St.trace ++ processQueue c5St.failedRequestsQueue (some ErrVal.refreshErr)
          ++ (if c5St.pathname ∈ publicPages then [] else [Action.redirect "/login"])
          ++ [Action.rejectToCaller 0 ErrVal.refreshErr, Action.setRefreshing false]
       ∧ (settle c5St false).redirects
        = c5St.redirects ++ (if c5St.pathname ∈ publicPages then [] else ["/login"])
       ∧ ((settle c5St false).redirects ≠ c5St.redirects ↔ c5St.pathname ∉ publicPages)) :=
  ⟨rfl, c5_refresh_failure_path c5St 0 { url := some "/api/a", _retry := true } rfl⟩

/-- A success response of the login route carries a destructured user. -/
lemma loginRoute_user_some (w : LoginWorld) (e p : Option String) (u : Obj)
    (hu : (loginRoute w e p).user = some u) : ∃ doc, u = omitKey "password" doc := by
  unfold loginRoute at hu
  repeat' split at hu
  all_goals simp at hu
  exact ⟨_, hu.symm⟩

/-- A success response of the me route carries a projected user. -/
lemma meRoute_user_some (w : MeWorld) (tok : Option String) (u : Obj)
    (hu : (meRoute w tok).user = some u) : ∃ doc, u = omitKey "password" doc := by
  unfold meRoute at hu
  repeat' split at hu
  all_goals simp at hu
  exact ⟨_, hu.symm⟩

/-- A success response of the refresh route carries a destructured user. -/
lemma refreshRoute_user_some (w : RefreshWorld) (tok : Option String) (u : Obj)
    (hu : (refreshRoute w tok).user = some u) : ∃ doc, u = omitKey "password" doc := by
  unfold refreshRoute at hu
  repeat' split at hu
  all_goals simp at hu
  exact ⟨_, hu.symm⟩

/-- A user document as stored in MongoDB, hash included. -/
def demoUserDoc : Obj :=
  [("_id", "0123"), ("email", "a@b.com"), ("password", "bcryptHash"),
   ("name", "Alice"), ("gender", "f")]

/-- A refresh-route environment with one valid token and one stored user. -/
def c7World : RefreshWorld :=
  { dbConnOk := true, jwtSecretKey := some "sec", jwtRefreshKey := some "ref",
    verifyRefresh := fun tok =>
      if tok == "good" then some (Decoded.obj [("_id", "0123")]) else none,
    findUser := fun idHex =>
      if idHex == "0123" then DbOutcome.found demoUserDoc else DbOutcome.notFound }

/-- Claim C7 counterexample: the refresh route answers 400, not 200 or
401, both when the refresh cookie is missing and when the token is
invalid or expired (the verify helper returns null, which the malformed
check catches because in JavaScript typeof null is the string object). -/
theorem c7_counterexample :
    (refreshRoute c7World none).status = 400
    ∧ (refreshRoute c7World (some "expired")).status = 400
    ∧ ¬ ((refreshRoute c7World none).status = 200
         ∨ (refreshRoute c7World none).status = 401) := by
  decide

/-- Claim C7 (amended): the refresh route answers 200 with a user
object, or 400 (missing refresh cookie, or a token whose verification
yields null or a payload without an id), or 404 (user not found), or
401 (processing errors: db connection failure, missing JWT env keys, a
throwing findOne); no other status is produced. -/
theorem c7_refresh_status_range (w : RefreshWorld) (tok : Option String) :
    ((refreshRoute w tok).status = 200 ∨ (refreshRoute w tok).status = 400
      ∨ (refreshRoute w tok).status = 401 ∨ (refreshRoute w tok).status = 404)
    ∧ ((refreshRoute w tok).status = 200 → (refreshRoute w tok).user.isSome = true) := by
  constructor
  · unfold refreshRoute
    repeat' split
    all_goals simp
  · unfold refreshRoute
    repeat' split
    all_goals simp

/-- Witness for C7 (amended) at a concrete valid refresh request. -/
theorem c7_refresh_status_range_witness :
    (refreshRoute c7World (some "good")).status = 200
    ∧ (refreshRoute c7World (some "good")).user.isSome = true :=
  ⟨by decide, (c7_refresh_status_range c7World (some "good")).2 (by decide)⟩

/-- Claim C8: logout always ends with user, error cleared, loading
false and a navigation to /login, whatever the network call does; a
network failure is only logged, never surfaced to the caller. -/
theorem c8_logout_finalization (st0 : AuthState) (net : NetResult) :
    (logout st0 net).finalSt.user = none
    ∧ (logout st0 net).finalSt.error = none
    ∧ (logout st0 net).finalSt.loading = false
    ∧ (logout st0 net).navCalls = ["/login"]
    ∧ (logout st0 net).thrown = none
    ∧ (∀ err, net = NetResult.netErr err →
        (logout st0 net).consoleErrors = ["Logout request failed: " ++ err]) := by
  cases net <;> simp [logout, logoutTry]

/-- A populated auth context before logout. -/
def c8St : AuthState :=
  { user := some (omitKey "password" demoUserDoc), loading := true, error := some "stale" }

/-- Witness for C8 at a concrete logout while the network is down. -/
theorem c8_logout_finalization_witness :
    (logout c8St (NetResult.netErr "Network Error")).finalSt.user = none
    ∧ (logout c8St (NetResult.netErr "Network Error")).finalSt.error = none
    ∧ (logout c8St (NetResult.netErr "Network Error")).finalSt.loading = false
    ∧ (logout c8St (NetResult.netErr "Network Error")).navCalls = ["/login"]
    ∧ (logout c8St (NetResult.netErr "Network Error")).thrown = none
    ∧ (logout c8St (NetResult.netErr "Network Error")).consoleErrors
      = ["Logout request failed: " ++ "Network Error"] := by
  have h := c8_logout_finalization c8St (NetResult.netErr "Network Error")
  exact ⟨h.1, h.2.1, h.2.2.1, h.2.2.2.1, h.2.2.2.2.1,
         h.2.2.2.2.2 "Network Error" rfl⟩

/-- Claim C10: a 200 response from login, me or refresh never carries a
password binding in its user object: login and refresh strip it by
destructuring, me excludes it through the query projection. -/
theorem c10_password_never_in_success_body :
    (∀ (w : LoginWorld) (e p : Option String) (u : Obj),
        (loginRoute w e p).status = 200 → (loginRoute w e p).user = some u →
        u.lookup "password" = none)
    ∧ (∀ (w : MeWorld) (tok : Option String) (u : Obj),
        (meRoute w tok).status = 200 → (meRoute w tok).user = some u →
        u.lookup "password" = none)
    ∧ (∀ (w : RefreshWorld) (tok : Option String) (u : Obj),
        (refreshRoute w tok).status = 200 → (refreshRoute w tok).user = some u →
        u.lookup "password" = none) := by
  refine ⟨fun w e p u _ hu => ?_, fun w tok u _ hu => ?_, fun w tok u _ hu => ?_⟩
  · obtain ⟨doc, hdoc⟩ := loginRoute_user_some w e p u hu
    rw [hdoc]
    exact lookup_omitKey _ _
  · obtain ⟨doc, hdoc⟩ := meRoute_user_some w tok u hu
    rw [hdoc]
    exact lookup_omitKey _ _
  · obtain ⟨doc, hdoc⟩ := refreshRoute_user_some w tok u hu
    rw [hdoc]
    exact lookup_omitKey _ _

/-- A login-route environment with one stored user. -/
def c10LoginWorld : LoginWorld :=
  { dbConnOk := true,
    findByEmail := fun e =>
      if e == "a@b.com" then DbOutcome.found demoUserDoc else DbOutcome.notFound,
    bcryptCompare := fun pw h => pw == "secret" && h == "bcryptHash",
    jwtSecretKey := some "sec", jwtRefreshKey := some "ref" }

/-- A me-route environment with one valid access token and one stored user. -/
def c10MeWorld : MeWorld :=
  { dbConnOk := true,
    verifyAccess := fun tok =>
      if tok == "acc" then some (Decoded.obj [("_id", "0123")]) else none,
    findById := fun idHex =>
      if idHex == "0123" then DbOutcome.found demoUserDoc else DbOutcome.notFound }

/-- A refresh-route environment with one valid token and one stored user. -/
def c10RefreshWorld : RefreshWorld :=
  { dbConnOk := true, jwtSecretKey := some "sec", jwtRefreshKey := some "ref",
    verifyRefresh := fun tok =>
      if tok == "good" then some (Decoded.obj [("_id", "0123")]) else none,
    findUser := fun idHex =>
      if idHex == "0123" then DbOutcome.found demoUserDoc else DbOutcome.notFound }

/-- Witness for C10 at concrete successful login, me and refresh calls. -/
theorem c10_password_never_in_success_body_witness :
    ((loginRoute c10LoginWorld (some "a@b.com") (some "secret")).status = 200
     ∧ (loginRoute c10LoginWorld (some "a@b.com") (some "secret")).user
       = some (omitKey "password" demoUserDoc)
     ∧ (omitKey "password" demoUserDoc).lookup "password" = none)
    ∧ ((meRoute c10MeWorld (some "acc")).status = 200
       ∧ (meRoute c10MeWorld (some "acc")).user = some (omitKey "password" demoUserDoc)
       ∧ (omitKey "password" demoUserDoc).lookup "password" = none)
    ∧ ((refreshRoute c10RefreshWorld (some "good")).status = 200
       ∧ (refreshRoute c10RefreshWorld (some "good")).user
         = some (omitKey "password" demoUserDoc)
       ∧ (omitKey "password" demoUserDoc).lookup "password" = none) :=
  ⟨⟨by decide, by decide,
    c10_password_never_in_success_body.1 c10LoginWorld (some "a@b.com") (some "secret")
      (omitKey "password" demoUserDoc) (by decide) (by decide)⟩,
   ⟨by decide, by decide,
    c10_password_never_in_success_body.2.1 c10MeWorld (some "acc")
      (omitKey "password" demoUserDoc) (by decide) (by decide)⟩,
   ⟨by decide, by decide,
    c10_password_never_in_success_body.2.2 c10RefreshWorld (some "good")
      (omitKey "password" demoUserDoc) (by decide) (by decide)⟩⟩

/-- Unfolding one scheduled event. -/
lemma runLoop_cons (st : LoopState) (e : Event) (evs : List Event) :
    runLoop st (e :: evs) = runLoop (step st e) evs := rfl

/-- A fresh task id makes the newReq event run the interceptor. -/
lemma step_newReq_fresh (st : LoopState) (i : Nat) (req : ReqConfig) (status : Option Nat)
    (h : st.tasks i = none) :
    step st (Event.newReq i req status) = handleErr st i req status := by
  simp [step, h]

/-- Claim C2: in every state reachable under any schedule the queue is
non-empty only while isRefreshing is true; and when the in-flight
refresh settles, the queue is drained to empty with every continuation
resolved or rejected, and the isRefreshing reset to false by the
finally block comes strictly after the whole drain in the action
order, leaving an idle coordinator with an empty queue for any request
processed afterwards. -/
theorem c2_refresh_state_invariant :
    (∀ (p : String) (evs : List Event),
        (runLoop (initSt p) evs).failedRequestsQueue ≠ [] →
        (runLoop (initSt p) evs).isRefreshing = true)
    ∧ (∀ (st : LoopState) (t : Nat) (req : ReqConfig) (ok : Bool),
        st.inflight = some (t, req) →
        (settle st ok).failedRequestsQueue = []
        ∧ (settle st ok).isRefreshing = false
        ∧ (settle st ok).trace
          = st.trace
            ++ processQueue st.failedRequestsQueue
                 (if ok then none else some ErrVal.refreshErr)
            ++ (if ok then [Action.replay t]
                else (if st.pathname ∈ publicPages then [] else [Action.redirect "/login"])
                     ++ [Action.rejectToCaller t ErrVal.refreshErr])
            ++ [Action.setRefreshing false]) := by
  constructor
  · intro p evs
    exact qInv_runLoop evs (initSt p) (fun h => absurd rfl h)
  · intro st t req ok h
    cases ok
    · rw [settle_fail st t req h]
      refine ⟨rfl, rfl, ?_⟩
      simp [List.append_assoc]
    · rw [settle_ok st t req h]
      refine ⟨rfl, rfl, ?_⟩
      simp [List.append_assoc]

/-- A state mid-episode used to witness C2. -/
def c2St : LoopState :=
  { isRefreshing := true, failedRequestsQueue := [1, 2],
    tasks := fun j =>
      if j = 0 then some (TaskSt.awaitingSt { url := some "/api/a", _retry := true })
      else if j = 1 then some (TaskSt.queuedSt { url := some "/api/b", _retry := false })
      else if j = 2 then some (TaskSt.queuedSt { url := some "/api/c", _retry := false })
      else none,
    microtasks := [], inflight := some (0, { url := some "/api/a", _retry := true }),
    trace := [], pathname := "/dashboard", redirects := [] }

/-- Witness for C2: a schedule reaching a non-empty queue, and a
concrete settling refresh. -/
theorem c2_refresh_state_invariant_witness :
    ((runLoop (initSt "/dashboard")
        [Event.newReq 0 { url := some "/api/a", _retry := false } (some 401),
         Event.newReq 1 { url := some "/api/b", _retry := false } (some 401)]).failedRequestsQueue
       ≠ []
     ∧ (runLoop (initSt "/dashboard")
        [Event.newReq 0 { url := some "/api/a", _retry := false } (some 401),
         Event.newReq 1 { url := some "/api/b", _retry := false } (some 401)]).isRefreshing
       = true)
    ∧ (c2St.inflight = some (0, { url := some "/api/a", _retry := true })
       ∧ ((settle c2St true).failedRequestsQueue = []
          ∧ (settle c2St true).isRefreshing = false
          ∧ (settle c2St true).trace
            = c2St.trace
              ++ processQueue c2St.failedRequestsQueue
                   (if true then none else some ErrVal.refreshErr)
              ++ (if true then [Action.replay 0]
                  else (if c2St.pathname ∈ publicPages then []
                        else [Action.redirect "/login"])
                       ++ [Action.rejectToCaller 0 ErrVal.refreshErr])
              ++ [Action.setRefreshing false])) :=
  ⟨⟨by decide,
    c2_refresh_state_invariant.1 "/dashboard"
      [Event.newReq 0 { url := some "/api/a", _retry := false } (some 401),
       Event.newReq 1 { url := some "/api/b", _retry := false } (some 401)] (by decide)⟩,
   ⟨rfl, c2_refresh_state_invariant.2 c2St 0 { url := some "/api/a", _retry := true } true rfl⟩⟩

/-- Folding further eligible 401 arrivals over a busy coordinator only
pushes their continuations, in arrival order, onto the queue. -/
lemma runLoop_enqueue_phase :
    ∀ (rest : List (Nat × ReqConfig)) (st : LoopState),
      st.isRefreshing = true →
      (∀ pr ∈ rest, shouldRefresh (some 401) pr.2 = true) →
      (∀ pr ∈ rest, st.tasks pr.1 = none) →
      (rest.map Prod.fst).Nodup →
      (runLoop st (rest.map fun pr => Event.newReq pr.1 pr.2 (some 401))).trace
        = st.trace ++ rest.map (fun pr => Action.pushQueue pr.1)
      ∧ (runLoop st (rest.map fun pr => Event.newReq pr.1 pr.2 (some 401))).failedRequestsQueue
        = st.failedRequestsQueue ++ rest.map Prod.fst
      ∧ (runLoop st (rest.map fun pr => Event.newReq pr.1 pr.2 (some 401))).isRefreshing = true
      ∧ (runLoop st (rest.map fun pr => Event.newReq pr.1 pr.2 (some 401))).inflight
        = st.inflight := by
  intro rest
  induction rest with
  | nil =>
    intro st h1 _ _ _
    exact ⟨by simp [runLoop], by simp [runLoop], h1, rfl⟩
  | cons hd tl ih =>
    intro st h1 h2 h3 h4
    have hfresh : st.tasks hd.1 = none := h3 hd (List.mem_cons_self hd tl)
    have helig : shouldRefresh (some 401) hd.2 = true := h2 hd (List.mem_cons_self hd tl)
    rw [List.map_cons, runLoop_cons, step_newReq_fresh st hd.1 hd.2 (some 401) hfresh,
        handleErr_enqueue st hd.1 hd.2 (some 401) helig h1]
    have hnotmem : hd.1 ∉ tl.map Prod.fst := by
      rw [List.map_cons] at h4
      exact (List.nodup_cons.mp h4).1
    have h3' : ∀ pr ∈ tl,
        (updT st.tasks hd.1 (TaskSt.queuedSt hd.2)) pr.1 = none := by
      intro pr hpr
      have hne : pr.1 ≠ hd.1 := by
        intro hEq
        exact hnotmem (hEq ▸ List.mem_map_of_mem Prod.fst hpr)
      simp only [updT, if_neg hne]
      exact h3 pr (List.mem_cons_of_mem hd hpr)
    have h4' : (tl.map Prod.fst).Nodup := by
      rw [List.map_cons] at h4
      exact (List.nodup_cons.mp h4).2
    obtain ⟨e1, e2, e3, e4⟩ :=
      ih { st with failedRequestsQueue := st.failedRequestsQueue ++ [hd.1],
                   tasks := updT st.tasks hd.1 (TaskSt.queuedSt hd.2),
                   trace := st.trace ++ [Action.pushQueue hd.1] }
        h1 (fun pr hpr => h2 pr (List.mem_cons_of_mem hd hpr)) h3' h4'
    refine ⟨?_, ?_, e3, e4⟩
    · rw [e1]
      simp
    · rw [e2]
      simp

/-- Recognizer for the refresh-call action. -/
def isIssueRefresh (a : Action) : Bool :=
  match a with
  | Action.issueRefresh => true
  | _ => false

/-- Enqueue actions contain no refresh call. -/
lemma filter_isIssueRefresh_pushes (l : List (Nat × ReqConfig)) :
    ((l.map fun pr => Action.pushQueue pr.1).filter isIssueRefresh) = [] := by
  induction l with
  | nil => rfl
  | cons hd tl ih => simpa [isIssueRefresh, List.filter_cons] using ih

/-- Claim C1: when N (two or more) refresh-eligible requests all fail
with 401 in one event-loop tick on an idle coordinator, the first
handler marks its request retried and raises isRefreshing strictly
before its suspension point, issues the single refresh call of the
whole trace, and every later handler only pushes its continuation onto
failedRequestsQueue. -/
theorem c1_single_flight (p : String) (i1 : Nat) (r1 : ReqConfig)
    (rest : List (Nat × ReqConfig))
    (_hN : rest ≠ [])
    (h1 : shouldRefresh (some 401) r1 = true)
    (hrest : ∀ pr ∈ rest, shouldRefresh (some 401) pr.2 = true)
    (hids : (i1 :: rest.map Prod.fst).Nodup) :
    (runLoop (initSt p)
        (((i1, r1) :: rest).map fun pr => Event.newReq pr.1 pr.2 (some 401))).trace
      = [Action.setRetry i1, Action.setRefreshing true, Action.issueRefresh,
         Action.suspend i1] ++ rest.map (fun pr => Action.pushQueue pr.1)
    ∧ ((runLoop (initSt p)
        (((i1, r1) :: rest).map fun pr => Event.newReq pr.1 pr.2 (some 401))).trace.filter
          isIssueRefresh) = [Action.issueRefresh]
    ∧ (runLoop (initSt p)
        (((i1, r1) :: rest).map fun pr =>
          Event.newReq pr.1 pr.2 (some 401))).failedRequestsQueue = rest.map Prod.fst
    ∧ (runLoop (initSt p)
        (((i1, r1) :: rest).map fun pr => Event.newReq pr.1 pr.2 (some 401))).isRefreshing
      = true
    ∧ (runLoop (initSt p)
        (((i1, r1) :: rest).map fun pr => Event.newReq pr.1 pr.2 (some 401))).inflight
      = some (i1, { r1 with _retry := true }) := by
  rw [List.map_cons, runLoop_cons, step_newReq_fresh (initSt p) i1 r1 (some 401) rfl,
      handleErr_start (initSt p) i1 r1 (some 401) h1 rfl]
  have h3' : ∀ pr ∈ rest,
      (updT (initSt p).tasks i1 (TaskSt.awaitingSt { r1 with _retry := true })) pr.1
        = none := by
    intro pr hpr
    have hne : pr.1 ≠ i1 := by
      intro hEq
      exact (List.nodup_cons.mp hids).1 (hEq ▸ List.mem_map_of_mem Prod.fst hpr)
    simp [updT, if_neg hne, initSt]
  obtain ⟨e1, e2, e3, e4⟩ :=
    runLoop_enqueue_phase rest
      { initSt p with isRefreshing := true,
                      inflight := some (i1, { r1 with _retry := true }),
                      tasks := updT (initSt p).tasks i1
                        (TaskSt.awaitingSt { r1 with _retry := true }),
                      trace := (initSt p).trace
                        ++ [Action.setRetry i1, Action.setRefreshing true,
                            Action.issueRefresh, Action.suspend i1] }
      rfl hrest h3' (List.nodup_cons.mp hids).2
  refine ⟨?_, ?_, ?_, e3, e4⟩
  · rw [e1]
    simp [initSt]
  · rw [e1]
    simp only [initSt, List.nil_append, List.filter_append,
      filter_isIssueRefresh_pushes, List.append_nil]
    rfl
  · rw [e2]
    simp [initSt]

/-- Witness for C1: three refresh-eligible requests failing in one tick. -/
theorem c1_single_flight_witness :
    ([(1, ({ url := some "/api/b", _retry := false } : ReqConfig)),
      (2, ({ url := some "/api/c", _retry := false } : ReqConfig))] : List (Nat × ReqConfig)) ≠ []
    ∧ shouldRefresh (some 401) { url := some "/api/a", _retry := false } = true
    ∧ ((runLoop (initSt "/dashboard")
        (((0, ({ url := some "/api/a", _retry := false } : ReqConfig))
            :: [(1, ({ url := some "/api/b", _retry := false } : ReqConfig)),
                (2, ({ url := some "/api/c", _retry := false } : ReqConfig))]).map
          fun pr => Event.newReq pr.1 pr.2 (some 401))).trace
      = [Action.setRetry 0, Action.setRefreshing true, Action.issueRefresh,
         Action.suspend 0]
        ++ ([(1, ({ url := some "/api/b", _retry := false } : ReqConfig)),
             (2, ({ url := some "/api/c", _retry := false } : ReqConfig))].map
              fun pr => Action.pushQueue pr.1)
    ∧ ((runLoop (initSt "/dashboard")
        (((0, ({ url := some "/api/a", _retry := false } : ReqConfig))
            :: [(1, ({ url := some "/api/b", _retry := false } : ReqConfig)),
                (2, ({ url := some "/api/c", _retry := false } : ReqConfig))]).map
          fun pr => Event.newReq pr.1 pr.2 (some 401))).trace.filter isIssueRefresh)
      = [Action.issueRefresh]
    ∧ (runLoop (initSt "/dashboard")
        (((0, ({ url := some "/api/a", _retry := false } : ReqConfig))
            :: [(1, ({ url := some "/api/b", _retry := false } : ReqConfig)),
                (2, ({ url := some "/api/c", _retry := false } : ReqConfig))]).map
          fun pr => Event.newReq pr.1 pr.2 (some 401))).failedRequestsQueue
      = [(1, ({ url := some "/api/b", _retry := false } : ReqConfig)),
         (2, ({ url := some "/api/c", _retry := false } : ReqConfig))].map Prod.fst
    ∧ (runLoop (initSt "/dashboard")
        (((0, ({ url := some "/api/a", _retry := false } : ReqConfig))
            :: [(1, ({ url := some "/api/b", _retry := false } : ReqConfig)),
                (2, ({ url := some "/api/c", _retry := false } : ReqConfig))]).map
          fun pr => Event.newReq pr.1 pr.2 (some 401))).isRefreshing = true
    ∧ (runLoop (initSt "/dashboard")
        (((0, ({ url := some "/api/a", _retry := false } : ReqConfig))
            :: [(1, ({ url := some "/api/b", _retry := false } : ReqConfig)),
                (2, ({ url := some "/api/c", _retry := false } : ReqConfig))]).map
          fun pr => Event.newReq pr.1 pr.2 (some 401))).inflight
      = some (0, { url := some "/api/a", _retry := true })) :=
  ⟨by decide, by decide,
   c1_single_flight "/dashboard" 0 { url := some "/api/a", _retry := false }
     [(1, { url := some "/api/b", _retry := false }),
      (2, { url := some "/api/c", _retry := false })]
     (by decide) (by decide) (by decide) (by decide)⟩

/-- Claim C9: only the triggering request of an episode is marked
retried; a queued continuation keeps its unmarked request through
resolution and replay, so a replay that fails 401 again re-enters the
refresh flow and starts a new refresh, while the marked triggering
replay is rejected directly. -/
theorem c9_retry_marking :
    (∀ (st : LoopState) (i : Nat) (req : ReqConfig),
        st.isRefreshing = false → shouldRefresh (some 401) req = true →
        (handleErr st i req (some 401)).inflight = some (i, { req with _retry := true })
        ∧ (handleErr st i req (some 401)).tasks i
          = some (TaskSt.awaitingSt { req with _retry := true }))
    ∧ (∀ (st : LoopState) (t j : Nat) (req r : ReqConfig),
        st.inflight = some (t, req) → j ≠ t → j ∈ st.failedRequestsQueue →
        st.tasks j = some (TaskSt.queuedSt r) →
        (settle st true).tasks j = some (TaskSt.microReplay r))
    ∧ (∀ (st : LoopState) (j : Nat) (rest : List Nat) (r : ReqConfig),
        st.microtasks = j :: rest → st.tasks j = some (TaskSt.microReplay r) →
        (microStep st).tasks j = some (TaskSt.replayedSt r)
        ∧ (microStep st).trace = st.trace ++ [Action.replay j])
    ∧ (∀ (st : LoopState) (j : Nat) (r : ReqConfig),
        st.tasks j = some (TaskSt.replayedSt r) → st.isRefreshing = false →
        shouldRefresh (some 401) r = true →
        (step st (Event.respErr j (some 401))).inflight = some (j, { r with _retry := true })
        ∧ (step st (Event.respErr j (some 401))).trace
          = st.trace ++ [Action.setRetry j, Action.setRefreshing true,
                         Action.issueRefresh, Action.suspend j])
    ∧ (∀ (st : LoopState) (t : Nat) (r : ReqConfig),
        st.tasks t = some (TaskSt.replayedSt r) → r._retry = true →
        (step st (Event.respErr t (some 401))).inflight = st.inflight
        ∧ (step st (Event.respErr t (some 401))).isRefreshing = st.isRefreshing
        ∧ (step st (Event.respErr t (some 401))).trace
          = st.trace ++ [Action.rejectToCaller t (ErrVal.respErrVal t (some 401))]) := by
  refine ⟨?_, ?_, ?_, ?_, ?_⟩
  · intro st i req hidle helig
    rw [handleErr_start st i req (some 401) helig hidle]
    exact ⟨rfl, by simp [updT]⟩
  · intro st t j req r hin hjt hjq hjr
    rw [settle_ok st t req hin]
    simp [hjt, hjq, hjr]
  · intro st j rest r hm hr
    constructor
    · simp [microStep, hm, hr, updT]
    · simp [microStep, hm, hr]
  · intro st j r hr hidle helig
    rw [show step st (Event.respErr j (some 401)) = handleErr st j r (some 401) by
      simp [step, hr]]
    rw [handleErr_start st j r (some 401) helig hidle]
    exact ⟨rfl, rfl⟩
  · intro st t r hr hretry
    rw [show step st (Event.respErr t (some 401)) = handleErr st t r (some 401) by
      simp [step, hr]]
    rw [handleErr_reject st t r (some 401) (shouldRefresh_of_retried (some 401) r hretry)]
    exact ⟨rfl, rfl, rfl⟩

/-- A mid-episode state used to witness C9. -/
def c9St : LoopState :=
  { isRefreshing := true, failedRequestsQueue := [1, 2],
    tasks := fun j =>
      if j = 0 then some (TaskSt.awaitingSt { url := some "/api/a", _retry := true })
      else if j = 1 then some (TaskSt.queuedSt { url := some "/api/b", _retry := false })
      else if j = 2 then some (TaskSt.queuedSt { url := some "/api/c", _retry := false })
      else none,
    microtasks := [], inflight := some (0, { url := some "/api/a", _retry := true }),
    trace := [], pathname := "/dashboard", redirects := [] }

/-- A state with pending replay microtasks used to witness C9. -/
def c9MicroSt : LoopState :=
  { isRefreshing := false, failedRequestsQueue := [],
    tasks := fun j =>
      if j = 0 then some (TaskSt.replayedSt { url := some "/api/a", _retry := true })
      else if j = 1 then some (TaskSt.microReplay { url := some "/api/b", _retry := false })
      else if j = 2 then some (TaskSt.microReplay { url := some "/api/c", _retry := false })
      else none,
    microtasks := [1, 2], inflight := none,
    trace := [], pathname := "/dashboard", redirects := [] }

/-- A state with in-flight replays used to witness C9. -/
def c9ReplaySt : LoopState :=
  { isRefreshing := false, failedRequestsQueue := [],
    tasks := fun j =>
      if j = 0 then some (TaskSt.replayedSt { url := some "/api/a", _retry := true })
      else if j = 1 then some (TaskSt.replayedSt { url := some "/api/b", _retry := false })
      else none,
    microtasks := [], inflight := none,
    trace := [], pathname := "/dashboard", redirects := [] }

/-- Witness for C9 at concrete states of one refresh episode. -/
theorem c9_retry_marking_witness :
    ((handleErr (initSt "/dashboard") 0 { url := some "/api/a", _retry := false }
        (some 401)).inflight = some (0, { url := some "/api/a", _retry := true })
     ∧ (handleErr (initSt "/dashboard") 0 { url := some "/api/a", _retry := false }
          (some 401)).tasks 0
       = some (TaskSt.awaitingSt { url := some "/api/a", _retry := true }))
    ∧ (settle c9St true).tasks 1
      = some (TaskSt.microReplay { url := some "/api/b", _retry := false })
    ∧ ((microStep c9MicroSt).tasks 1
        = some (TaskSt.replayedSt { url := some "/api/b", _retry := false })
       ∧ (microStep c9MicroSt).trace = c9MicroSt.trace ++ [Action.replay 1])
    ∧ ((step c9ReplaySt (Event.respErr 1 (some 401))).inflight
        = some (1, { url := some "/api/b", _retry := true })
       ∧ (step c9ReplaySt (Event.respErr 1 (some 401))).trace
         = c9ReplaySt.trace ++ [Action.setRetry 1, Action.setRefreshing true,
                                Action.issueRefresh, Action.suspend 1])
    ∧ ((step c9ReplaySt (Event.respErr 0 (some 401))).inflight = c9ReplaySt.inflight
       ∧ (step c9ReplaySt (Event.respErr 0 (some 401))).isRefreshing
         = c9ReplaySt.isRefreshing
       ∧ (step c9ReplaySt (Event.respErr 0 (some 401))).trace
         = c9ReplaySt.trace
           ++ [Action.rejectToCaller 0 (ErrVal.respErrVal 0 (some 401))]) :=
  ⟨c9_retry_marking.1 (initSt "/dashboard") 0 { url := some "/api/a", _retry := false }
     rfl (by decide),
   c9_retry_marking.2.1 c9St 0 1 { url := some "/api/a", _retry := true }
     { url := some "/api/b", _retry := false } rfl (by decide) (by decide) (by decide),
   c9_retry_marking.2.2.1 c9MicroSt 1 [2] { url := some "/api/b", _retry := false }
     rfl (by decide),
   c9_retry_marking.2.2.2.1 c9ReplaySt 1 { url := some "/api/b", _retry := false }
     (by decide) rfl (by decide),
   c9_retry_marking.2.2.2.2 c9ReplaySt 0 { url := some "/api/a", _retry := true }
     (by decide) rfl⟩

/-- Running one microtask per pending replay issues the replays in
exactly the order of the microtask queue. -/
lemma microDrain :
    ∀ (q : List Nat) (st : LoopState),
      st.microtasks = q → q.Nodup →
      (∀ j ∈ q, ∃ r, st.tasks j = some (TaskSt.microReplay r)) →
      (runLoop st (List.replicate q.length Event.microtask)).trace
        = st.trace ++ q.map Action.replay := by
  intro q
  induction q with
  | nil =>
    intro st _ _ _
    simp [runLoop]
  | cons j tl ih =>
    intro st hm hnd htasks
    obtain ⟨r, hr⟩ := htasks j (List.mem_cons_self j tl)
    have hstep : step st Event.microtask
        = { st with microtasks := tl,
                    tasks := updT st.tasks j (TaskSt.replayedSt r),
                    trace := st.trace ++ [Action.replay j] } := by
      simp [step, microStep, hm, hr]
    rw [List.length_cons, List.replicate_succ, runLoop_cons, hstep]
    have htl : ∀ j2 ∈ tl,
        ∃ r2, (updT st.tasks j (TaskSt.replayedSt r)) j2 = some (TaskSt.microReplay r2) := by
      intro j2 hj2
      have hne : j2 ≠ j := by
        intro hEq
        exact (List.nodup_cons.mp hnd).1 (hEq ▸ hj2)
      obtain ⟨r2, hr2⟩ := htasks j2 (List.mem_cons_of_mem j hj2)
      exact ⟨r2, by simp [updT, if_neg hne, hr2]⟩
    rw [ih _ rfl (List.nodup_cons.mp hnd).2 htl]
    simp

/-- Claim C6: before a settle every step only appends to the queue (no
entry is removed or skipped); when the refresh succeeds the queued
continuations are resolved in exact push order and their replay
microtasks are scheduled in that same order; and pumping the microtask
queue then issues the replays in exactly the order the requests were
enqueued. -/
theorem c6_fifo_queue :
    (∀ (st : LoopState) (ev : Event), ev ≠ Event.refreshOk → ev ≠ Event.refreshFail →
        ∃ ext, (step st ev).failedRequestsQueue = st.failedRequestsQueue ++ ext)
    ∧ (∀ (st : LoopState) (t : Nat) (req : ReqConfig),
        st.inflight = some (t, req) →
        (settle st true).trace
          = st.trace ++ processQueue st.failedRequestsQueue none
            ++ [Action.replay t, Action.setRefreshing false]
        ∧ (settle st true).microtasks = st.microtasks ++ st.failedRequestsQueue)
    ∧ (∀ (st : LoopState) (t : Nat) (req : ReqConfig),
        st.inflight = some (t, req) → st.microtasks = [] →
        t ∉ st.failedRequestsQueue → st.failedRequestsQueue.Nodup →
        (∀ j ∈ st.failedRequestsQueue, ∃ r, st.tasks j = some (TaskSt.queuedSt r)) →
        (runLoop (settle st true)
            (List.replicate st.failedRequestsQueue.length Event.microtask)).trace
          = st.trace ++ processQueue st.failedRequestsQueue none
            ++ [Action.replay t, Action.setRefreshing false]
            ++ st.failedRequestsQueue.map Action.replay) := by
  refine ⟨?_, ?_, ?_⟩
  · intro st ev hok hfail
    cases ev with
    | newReq i req status =>
      simp only [step]
      split
      · exact ⟨[], by simp⟩
      · unfold handleErr
        split
        · split
          · exact ⟨[i], rfl⟩
          · exact ⟨[], by simp⟩
        · exact ⟨[], by simp⟩
    | respErr i status =>
      simp only [step]
      split
      · unfold handleErr
        split
        · split
          · exact ⟨[i], rfl⟩
          · exact ⟨[], by simp⟩
        · exact ⟨[], by simp⟩
      · exact ⟨[], by simp⟩
    | refreshOk => exact absurd rfl hok
    | refreshFail => exact absurd rfl hfail
    | microtask =>
      simp only [step]
      unfold microStep
      split
      · exact ⟨[], by simp⟩
      · split
        · exact ⟨[], by simp⟩
        · exact ⟨[], by simp⟩
        · exact ⟨[], by simp⟩
  · intro st t req hin
    rw [settle_ok st t req hin]
    exact ⟨by simp, rfl⟩
  · intro st t req hin hm0 htq hnd htasks
    rw [settle_ok st t req hin]
    have hmr : ∀ j ∈ st.failedRequestsQueue,
        ∃ r, (fun j2 =>
            if j2 = t then some (TaskSt.replayedSt req)
            else if j2 ∈ st.failedRequestsQueue then
              match st.tasks j2 with
              | some (TaskSt.queuedSt r2) => some (TaskSt.microReplay r2)
              | x => x
            else st.tasks j2) j = some (TaskSt.microReplay r) := by
      intro j hj
      obtain ⟨r, hr⟩ := htasks j hj
      have hne : j ≠ t := fun hEq => htq (hEq ▸ hj)
      exact ⟨r, by simp [if_neg hne, hj, hr]⟩
    have hdrain := microDrain st.failedRequestsQueue
      { st with
          isRefreshing := false,
          failedRequestsQueue := [],
          inflight := none,
          microtasks := st.microtasks ++ st.failedRequestsQueue,
          tasks := fun j =>
            if j = t then some (TaskSt.replayedSt req)
            else if j ∈ st.failedRequestsQueue then
              match st.tasks j with
              | some (TaskSt.queuedSt r) => some (TaskSt.microReplay r)
              | x => x
            else st.tasks j,
          trace := st.trace ++ processQueue st.failedRequestsQueue none
                   ++ [Action.replay t, Action.setRefreshing false] }
      (by simp [hm0]) hnd hmr
    rw [hdrain]

/-- A mid-episode state with two queued tasks used to witness C6. -/
def c6St : LoopState :=
  { isRefreshing := true, failedRequestsQueue := [1, 2],
    tasks := fun j =>
      if j = 0 then some (TaskSt.awaitingSt { url := some "/api/a", _retry := true })
      else if j = 1 then some (TaskSt.queuedSt { url := some "/api/b", _retry := false })
      else if j = 2 then some (TaskSt.queuedSt { url := some "/api/c", _retry := false })
      else none,
    microtasks := [], inflight := some (0, { url := some "/api/a", _retry := true }),
    trace := [], pathname := "/dashboard", redirects := [] }

/-- Witness for C6 at a concrete two-deep queue. -/
theorem c6_fifo_queue_witness :
    (∃ ext, (step c6St (Event.newReq 3 { url := some "/api/d", _retry := false }
        (some 401))).failedRequestsQueue = c6St.failedRequestsQueue ++ ext)
    ∧ ((settle c6St true).trace
        = c6St.trace ++ processQueue c6St.failedRequestsQueue none
          ++ [Action.replay 0, Action.setRefreshing false]
       ∧ (settle c6St true).microtasks = c6St.microtasks ++ c6St.failedRequestsQueue)
    ∧ (runLoop (settle c6St true)
          (List.replicate c6St.failedRequestsQueue.length Event.microtask)).trace
      = c6St.trace ++ processQueue c6St.failedRequestsQueue none
        ++ [Action.replay 0, Action.setRefreshing false]
        ++ c6St.failedRequestsQueue.map Action.replay :=
  ⟨c6_fifo_queue.1 c6St (Event.newReq 3 { url := some "/api/d", _retry := false } (some 401))
     (by decide) (by decide),
   c6_fifo_queue.2.1 c6St 0 { url := some "/api/a", _retry := true } rfl,
   c6_fifo_queue.2.2 c6St 0 { url := some "/api/a", _retry := true } rfl rfl
     (by decide) (by decide)
     (by
       intro j hj
       simp only [c6St, List.mem_cons, List.not_mem_nil, or_false] at hj
       rcases hj with rfl | rfl
       · exact ⟨{ url := some "/api/b", _retry := false }, rfl⟩
       · exact ⟨{ url := some "/api/c", _retry := false }, rfl⟩)⟩

end ReactAuthTemplate
